import Mathlib

/-!
Shallow embedding of the realtime streaming session controller of
`realtime_coach.py` together with the telemetry client of
`src/mcp_client.py`, and proofs of the spec's claims about them.

Conventions of the embedding:
* Python dicts flowing over the wire are modelled by the `Json` type below;
  numeric values are rationals (the claims under study are structural and do
  not depend on floating-point rounding).
* A Python operation that can raise is modelled in `Except String`; an
  operation the code guards so that it cannot raise is still modelled with
  its fallible primitive, and totality is proved, not assumed.
* The dynamically typed session-info documents returned by the simulator SDK
  are modelled structurally (typed fields with `Option` for possibly missing
  keys), matching the `.get(key, default)` / `isinstance` guards in the code.
-/

namespace RealtimeCoach

/-- JSON values as produced/consumed by the Python code (`dict`, `list`,
`str`, numbers, booleans, `None`). -/
inductive Json where
  | null : Json
  | bool : Bool → Json
  | num : ℚ → Json
  | str : String → Json
  | arr : List Json → Json
  | obj : List (String × Json) → Json
  deriving Repr

/-- Field lookup in a JSON object, mirroring Python `d.get(k, default)`
guarded by `isinstance(d, dict)`: a non-object or a missing key yields the
default. -/
def Json.getField (j : Json) (k : String) (d : Json) : Json :=
  match j with
  | .obj fields =>
    match fields.lookup k with
    | some v => v
    | none => d
  | _ => d

/-- The keys of a JSON object (empty for non-objects). -/
def Json.keys : Json → List String
  | .obj fields => fields.map Prod.fst
  | _ => []

/-! ### The simulator SDK handle (`irsdk.IRSDK`), as consumed by the client

`mcp_client.py` reads generic telemetry variables with `self._irsdk[name]`
(which may raise, or yield `None`), reads `CamCarIdx` / `CarIdxPosition` /
`Speed` (typed by the SDK as int / int array / float), and reads the parsed
YAML session document `self._irsdk.session_info_update`. -/

/-- Outcome of one `self._irsdk[name]` read: the subscript may raise, the
variable may be `None`, or a value comes back. -/
inductive VarRead (α : Type) where
  | raises : VarRead α
  | missing : VarRead α
  | val : α → VarRead α
  deriving Repr, DecidableEq

/-- One entry of `DriverInfo.Drivers`, keeping the `.get(key, default)`
defaults of the code as `Option` fields. -/
structure Driver where
  carIdx : Option ℤ
  userName : Option String
  carScreenNameShort : Option String
  carNumber : Option String
  deriving Repr, DecidableEq

/-- The `WeekendInfo` document consumed by `get_track_info`. -/
structure WeekendInfo where
  trackDisplayName : Option String
  trackLength : Option String
  trackConfigName : Option String
  trackSurface : Option String
  trackWeatherType : Option String
  trackCity : Option String
  trackCountry : Option String
  deriving Repr, DecidableEq

/-- The parsed session-info document: `drivers` models
`session_info["DriverInfo"]["Drivers"]` (a `none` list entry models a
non-dict element, skipped by the `isinstance(driver, dict)` guard), and
a `none` field models a missing `DriverInfo`/`Drivers` or `WeekendInfo`
key (the code defaults these to `{}` / `[]`). -/
structure SessionInfo where
  drivers : Option (List (Option Driver))
  weekendInfo : Option WeekendInfo
  deriving Repr, DecidableEq

/-- Behaviour of a live `irsdk.IRSDK()` handle. `is_connected` is the SDK's
connectivity flag; `readVar` models `self._irsdk[name]` for the generic
variables; the three typed views model the SDK-typed variables the code
uses arithmetically; `session_info_update` is `None` or the parsed document. -/
structure IRSDKHandle where
  is_connected : Bool
  readVar : String → VarRead Json
  camCarIdx : VarRead ℤ
  carIdxPosition : VarRead (List ℤ)
  speedVar : VarRead ℚ
  session_info_update : Option SessionInfo

/-- State of `RacingMCPClient`: `self._irsdk` is `None` (never connected, or
disconnected) or holds an SDK handle. -/
inductive MCPState where
  | noHandle : MCPState
  | handle : IRSDKHandle → MCPState

namespace RacingMCPClient

/-- Embeds `RacingMCPClient._ready`: `self._irsdk is not None and self._irsdk.is_connected`. -/
def ready : MCPState → Bool
  | .noHandle => false
  | .handle h => h.is_connected

/-- Embeds `RacingMCPClient._get(name, default)`: returns the default when not
ready, when the subscript raises, or when the value is `None`. -/
def get_ (s : MCPState) (name : String) (default : Json) : Json :=
  match s with
  | .noHandle => default
  | .handle h =>
    if h.is_connected then
      match h.readVar name with
      | .raises => default
      | .missing => default
      | .val v => v
    else default

/-- The same `_get` logic applied to an SDK-typed variable read. -/
def getTyped {α : Type} (s : MCPState) (read : IRSDKHandle → VarRead α) (default : α) : α :=
  match s with
  | .noHandle => default
  | .handle h =>
    if h.is_connected then
      match read h with
      | .raises => default
      | .missing => default
      | .val v => v
    else default

/-- Python list subscript `xs[i]` on an `int` index: raises `IndexError`
when `i` is out of range (negative wrap-around does not occur in the code
because every subscript is guarded by `0 <= i`). -/
def pyIndex {α : Type} (xs : List α) (i : ℤ) : Except String α :=
  if h : 0 ≤ i ∧ i.toNat < xs.length then .ok (xs.get ⟨i.toNat, h.2⟩)
  else .error "IndexError: list index out of range"

/-- The guarded access `xs[i] if 0 <= i < len(xs) else None` from
`get_racing_situation`. -/
def guardedIndex {α : Type} (xs : List α) (i : ℤ) : Except String (Option α) :=
  if 0 ≤ i ∧ i < (xs.length : ℤ) then do
    let v ← pyIndex xs i
    pure (some v)
  else pure none

/-- Converts `None`-or-int to JSON. -/
def optIntJson : Option ℤ → Json
  | none => Json.null
  | some n => Json.num (n : ℚ)

/-- The loop body of the competitors loop in `get_racing_situation`: skips
non-dict entries, skips the camera car and negative indices, and appends one
competitor record with a bounds-checked position lookup. -/
def competitorStep (camIdx : ℤ) (positions : List ℤ) (acc : List Json) :
    Option Driver → Except String (List Json)
  | none => pure acc
  | some driver => do
    let idx := driver.carIdx.getD (-1)
    if idx = camIdx ∨ idx < 0 then
      pure acc
    else do
      let pos ← guardedIndex positions idx
      pure (acc ++ [Json.obj
        [("name", Json.str (driver.userName.getD "Unknown")),
         ("car", Json.str (driver.carScreenNameShort.getD "Unknown")),
         ("car_number", Json.str (driver.carNumber.getD "")),
         ("position", optIntJson pos)]])

/-- The default mapping `get_racing_situation` documents for the
disconnected case. -/
def situationDefaults : Json :=
  Json.obj
    [("position", Json.null),
     ("lap", Json.null),
     ("speed", Json.null),
     ("track_conditions", Json.obj []),
     ("vehicle_status", Json.obj []),
     ("competitors", Json.arr [])]

/-- Embeds `RacingMCPClient.get_racing_situation`. Returns `Except` because the
position-array subscripts are fallible primitives; the theorems show the
guards make the function total. -/
def get_racing_situation (s : MCPState) : Except String Json := do
  if ready s then
    let speed_ms := getTyped s IRSDKHandle.speedVar 0
    let sessionInfo :=
      match s with
      | .noHandle => none
      | .handle h => h.session_info_update
    let drivers := (sessionInfo.bind SessionInfo.drivers).getD []
    let camIdx := getTyped s IRSDKHandle.camCarIdx (-1)
    let positions := getTyped s IRSDKHandle.carIdxPosition []
    let playerPosition ← guardedIndex positions camIdx
    let competitors ← drivers.foldlM (competitorStep camIdx positions) []
    pure (Json.obj
      [("position", optIntJson playerPosition),
       ("lap", get_ s "Lap" Json.null),
       ("lap_distance", get_ s "LapDist" Json.null),
       ("speed", Json.obj
         [("m_s", Json.num speed_ms),
          ("km_h", Json.num (if speed_ms ≠ 0 then speed_ms * (18/5) else 0)),
          ("mph", Json.num (if speed_ms ≠ 0 then speed_ms * (2237/1000) else 0))]),
       ("track_conditions", Json.obj
         [("track_temp_c", get_ s "TrackTempCrew" Json.null),
          ("air_temp_c", get_ s "AirTemp" Json.null),
          ("weather_type", get_ s "WeatherType" Json.null)]),
       ("vehicle_status", Json.obj
         [("fuel_level_l", get_ s "FuelLevel" Json.null),
          ("fuel_percent", get_ s "FuelLevelPct" Json.null),
          ("oil_temp_c", get_ s "OilTemp" Json.null),
          ("water_temp_c", get_ s "WaterTemp" Json.null)]),
       ("competitors", Json.arr competitors)])
  else
    pure situationDefaults

/-- The default mapping `get_telemetry` documents for the disconnected case. -/
def telemetryDefaults : Json :=
  Json.obj
    [("rpm", Json.num 0),
     ("gear", Json.num 0),
     ("throttle", Json.num 0),
     ("brake", Json.num 0),
     ("clutch", Json.num 0),
     ("steering", Json.num 0),
     ("speed_ms", Json.num 0),
     ("speed_kph", Json.num 0),
     ("speed_mph", Json.num 0),
     ("temperatures", Json.obj [])]

/-- Embeds `RacingMCPClient.get_telemetry`. Total: every read goes through `_get`. -/
def get_telemetry (s : MCPState) : Json :=
  if ready s then
    let speed_ms := getTyped s IRSDKHandle.speedVar 0
    Json.obj
      [("rpm", get_ s "RPM" (Json.num 0)),
       ("gear", get_ s "Gear" (Json.num 0)),
       ("throttle", get_ s "Throttle" (Json.num 0)),
       ("brake", get_ s "Brake" (Json.num 0)),
       ("clutch", get_ s "Clutch" (Json.num 0)),
       ("steering", get_ s "SteeringWheelAngle" (Json.num 0)),
       ("speed_ms", Json.num speed_ms),
       ("speed_kph", Json.num (speed_ms * (18/5))),
       ("speed_mph", Json.num (speed_ms * (2237/1000))),
       ("temperatures", Json.obj
         [("oil_temp_c", get_ s "OilTemp" Json.null),
          ("water_temp_c", get_ s "WaterTemp" Json.null)])]
  else telemetryDefaults

/-- The default mapping `get_track_info` documents for the disconnected case. -/
def trackDefaults : Json :=
  Json.obj
    [("name", Json.str "unknown"),
     ("length", Json.str "unknown"),
     ("layout", Json.str "unknown"),
     ("surface", Json.str "unknown"),
     ("weather", Json.str "unknown")]

/-- Lift `.get(key, default)` over an optional string field, with a string
default. -/
def weekendField (f : Option String) (d : String) : Json :=
  Json.str (f.getD d)

/-- Embeds `RacingMCPClient.get_track_info`. -/
def get_track_info (s : MCPState) : Json :=
  if ready s then
    let sessionInfo :=
      match s with
      | .noHandle => none
      | .handle h => h.session_info_update
    let weekend := sessionInfo.bind SessionInfo.weekendInfo
    Json.obj
      [("name", weekendField (weekend.bind WeekendInfo.trackDisplayName) "unknown"),
       ("length", weekendField (weekend.bind WeekendInfo.trackLength) "unknown"),
       ("layout", weekendField (weekend.bind WeekendInfo.trackConfigName) "unknown"),
       ("surface", weekendField (weekend.bind WeekendInfo.trackSurface) "unknown"),
       ("weather", weekendField (weekend.bind WeekendInfo.trackWeatherType) "unknown"),
       ("city", (weekend.bind WeekendInfo.trackCity).elim Json.null Json.str),
       ("country", (weekend.bind WeekendInfo.trackCountry).elim Json.null Json.str)]
  else trackDefaults

end RacingMCPClient

/-! ### The capture queue (`queue.Queue`) and the microphone callback

`RealtimeAPIClient.__init__` creates `self.input_queue = queue.Queue()`:
a Python FIFO whose `maxsize` argument defaults to `0`, meaning an
infinite queue.  `audio_input_callback` calls `self.input_queue.put(...)`,
which blocks only when the queue is full. -/

/-- A Python `queue.Queue`: `maxsize = 0` means infinite capacity. -/
structure PyQueue (α : Type) where
  maxsize : ℕ
  items : List α
  deriving Repr, DecidableEq

/-- Embeds `Queue.full()`: true only for a finite queue at (or past) capacity. -/
def PyQueue.full {α : Type} (q : PyQueue α) : Bool :=
  decide (0 < q.maxsize ∧ q.maxsize ≤ q.items.length)

/-- Outcome of `Queue.put(item)` with the default `block=True`: either the
item is appended, or the call blocks the caller (modelled as a stuck
outcome, since nothing in the capture path ever drains the queue from the
callback's thread). -/
inductive PutResult (α : Type) where
  | enqueued : PyQueue α → PutResult α
  | blocked : PutResult α
  deriving Repr, DecidableEq

/-- Embeds `Queue.put(item)`: blocks when full, otherwise appends at the tail. -/
def PyQueue.put {α : Type} (q : PyQueue α) (a : α) : PutResult α :=
  if q.full then .blocked else .enqueued ⟨q.maxsize, q.items ++ [a]⟩

/-- The queue built in `RealtimeAPIClient.__init__`: `queue.Queue()`. -/
def inputQueueInit : PyQueue String := ⟨0, []⟩

/-- Embeds `RealtimeAPIClient.audio_input_callback`: puts the frame bytes on the
queue (the `status` log line has no effect on the queue). -/
def audio_input_callback (q : PyQueue String) (frame : String) : PutResult String :=
  q.put frame

/-- Feed a whole list of captured frames through the callback, recording
whether any invocation blocked. -/
def putAll (q : PyQueue String) : List String → PyQueue String × Bool
  | [] => (q, false)
  | f :: fs =>
    match audio_input_callback q f with
    | .enqueued q' =>
      let r := putAll q' fs
      (r.1, r.2)
    | .blocked => (q, true)

/-! ### The receive loop (`RealtimeAPIClient.handle_messages`)

Inbound wire messages are the tagged events below; the loop's observable
effects are outbound wire messages and speaker-stream actions.  The only
mutable state the loop touches is `self.speaker_stream`, modelled by a
single `Bool` (open or not). -/

/-- Inbound events, one per handled `event.get("type")` tag; `unknown`
covers every unrecognized tag. -/
inductive InEvent where
  | sessionCreated : String → InEvent
  | sessionUpdated : InEvent
  | conversationItemCreated : InEvent
  | audioDelta : String → InEvent
  | audioDone : InEvent
  | toolCall : String → String → InEvent
  | errorEvent : String → InEvent
  | speechStarted : InEvent
  | speechStopped : InEvent
  | unknown : String → InEvent
  deriving Repr, DecidableEq

/-- Outbound wire messages sent by the client. The `conversationItemCreate`
output carries the tool-result JSON (serialized with `json.dumps` on the
wire); `inputAudioAppend` carries the base64 audio payload. -/
inductive OutMsg where
  | sessionUpdate : Json → OutMsg
  | inputAudioAppend : String → OutMsg
  | conversationItemCreate : String → Json → OutMsg
  | responseCreate : OutMsg

/-- Speaker-stream actions: `open` models `sd.RawOutputStream(...)` plus
`.start()`, `write` a `.write(data)`, `close` the `.stop()`/`.close()` pair. -/
inductive AudioAction where
  | streamOpen : AudioAction
  | streamWrite : String → AudioAction
  | streamClose : AudioAction
  deriving Repr, DecidableEq

/-- The tool dispatch in the `response.function_call_arguments.done` branch:
a name→provider-call table with the `{"error": "Unknown function"}`
fallback. -/
def dispatchTool (racing : MCPState) (name : String) : Except String Json :=
  if name = "get_telemetry" then pure (RacingMCPClient.get_telemetry racing)
  else if name = "get_racing_situation" then RacingMCPClient.get_racing_situation racing
  else if name = "get_track_info" then pure (RacingMCPClient.get_track_info racing)
  else pure (Json.obj [("error", Json.str "Unknown function")])

/-- Result of handling one inbound event: the speaker-stream flag after the
event, outbound messages sent, and speaker actions performed, in order. -/
structure StepOut where
  speakerOpen : Bool
  msgs : List OutMsg
  audio : List AudioAction

/-- One iteration of the `async for` dispatch in `handle_messages`.
`racing` is `self.racing_client` (read-only here), `spk` is whether
`self.speaker_stream` is set. -/
def step (racing : MCPState) (spk : Bool) : InEvent → Except String StepOut
  | .audioDelta b64 =>
    if b64 ≠ "" then
      if spk then pure ⟨true, [], [.streamWrite b64]⟩
      else pure ⟨true, [], [.streamOpen, .streamWrite b64]⟩
    else pure ⟨spk, [], []⟩
  | .audioDone =>
    if spk then pure ⟨false, [], [.streamClose]⟩
    else pure ⟨false, [], []⟩
  | .toolCall name callId => do
    let result ← dispatchTool racing name
    pure ⟨spk, [.conversationItemCreate callId result, .responseCreate], []⟩
  | _ => pure ⟨spk, [], []⟩

/-- Accumulated observable behaviour of a run of the receive loop. -/
structure RunOut where
  speakerOpen : Bool
  msgs : List OutMsg
  audio : List AudioAction
  errored : Bool

/-- Run `handle_messages` over a finite prefix of the inbound event
sequence.  An exception from a handler is caught by the surrounding
`try`/`except`, ending the loop (`errored = true`). -/
def runEvents (racing : MCPState) (spk : Bool) : List InEvent → RunOut
  | [] => ⟨spk, [], [], false⟩
  | e :: rest =>
    match step racing spk e with
    | .error _ => ⟨spk, [], [], true⟩
    | .ok out =>
      let r := runEvents racing out.speakerOpen rest
      ⟨r.speakerOpen, out.msgs ++ r.msgs, out.audio ++ r.audio, r.errored⟩

/-! ### Startup (`connect`, `configure_session`) and the run loop -/

/-- The ambient conditions `RacingMCPClient.connect` runs under: whether the
`irsdk` import succeeded, the outcome of `IRSDK().startup()` (which the code
wraps in `try`/`except`, turning an exception into `False`), and the
behaviour of the freshly created handle. -/
structure StartEnv where
  irsdkAvailable : Bool
  startupResult : Except Unit Bool
  newHandle : IRSDKHandle

/-- Embeds `RacingMCPClient.connect`: raises `RuntimeError` when `irsdk is None`,
otherwise creates a handle and returns `startup()`'s verdict (exceptions
from `startup` are caught and become `False`).  Per the SDK, the handle's
`is_connected` flag reflects whether startup attached to the sim. -/
def RacingMCPClient.connect (env : StartEnv) : Except String (Bool × MCPState) :=
  if env.irsdkAvailable then
    let ok := match env.startupResult with
      | .ok b => b
      | .error _ => false
    .ok (ok, .handle { env.newHandle with is_connected := ok })
  else .error "RuntimeError: pyirsdk is required"

/-- Embeds `RealtimeAPIClient.connect`: opens the websocket (out of scope here,
modelled as succeeding), then calls `self.racing_client.connect()` with no
exception handling — a raise propagates.  On success it reads the track
info for the banner; on `False` it only logs. -/
def clientConnect (env : StartEnv) : Except String MCPState := do
  let (ok, racing) ← RacingMCPClient.connect env
  if ok then
    let _ := RacingMCPClient.get_track_info racing
    pure racing
  else
    pure racing

/-- Embeds `RealtimeAPIClient.configure_session`: reads the three getters and sends
one `session.update` whose payload carries the interpolated context and the
fixed session settings.  (The instructions f-string is abstracted to the
three values it interpolates.) -/
def configure_session (racing : MCPState) : Except String Json := do
  let situation ← RacingMCPClient.get_racing_situation racing
  let telemetry := RacingMCPClient.get_telemetry racing
  let track := RacingMCPClient.get_track_info racing
  pure (Json.obj
    [("modalities", Json.arr [Json.str "text", Json.str "audio"]),
     ("instructions_track", track.getField "name" (Json.str "Unknown")),
     ("instructions_position", situation.getField "position" (Json.str "Unknown")),
     ("instructions_speed_mph", telemetry.getField "speed_mph" (Json.num 0)),
     ("voice", Json.str "echo"),
     ("input_audio_format", Json.str "pcm16"),
     ("output_audio_format", Json.str "pcm16"),
     ("turn_detection_threshold", Json.num (3/10)),
     ("tools", Json.arr
       [Json.str "get_telemetry", Json.str "get_racing_situation",
        Json.str "get_track_info"]),
     ("temperature", Json.num (4/5)),
     ("max_response_output_tokens", Json.num 150)])

/-- Messages emitted by a finite prefix of `send_audio`'s loop: one
`input_audio_buffer.append` per dequeued frame (the payload stands for the
base64-encoded bytes). -/
def sendLoopMsgs (frames : List String) : List OutMsg :=
  frames.map OutMsg.inputAudioAppend

/-- Interleaving relation `Merge as bs cs`: `cs` is an order-preserving interleaving of `as` and
`bs` — the possible outbound traces of the two concurrently gathered loops. -/
inductive Merge {α : Type} : List α → List α → List α → Prop
  | nil : Merge [] [] []
  | left {a : α} {as bs cs : List α} : Merge as bs cs → Merge (a :: as) bs (a :: cs)
  | right {b : α} {as bs cs : List α} : Merge as bs cs → Merge as (b :: bs) (b :: cs)

/-- The outbound wire trace of `RealtimeAPIClient.run` after a successful
`connect`: `configure_session`'s message, then any interleaving of the send
loop's and the receive loop's messages (`asyncio.gather` starts only after
`configure_session` is awaited). -/
def RunTrace (racing : MCPState) (frames : List String) (events : List InEvent)
    (trace : List OutMsg) : Prop :=
  ∃ cfg merged,
    configure_session racing = .ok cfg ∧
    Merge (sendLoopMsgs frames) (runEvents racing false events).msgs merged ∧
    trace = OutMsg.sessionUpdate cfg :: merged

/-- Recognizers for trace statements. -/
def OutMsg.isSessionUpdate : OutMsg → Bool
  | .sessionUpdate _ => true
  | _ => false

def OutMsg.isAudioAppend : OutMsg → Bool
  | .inputAudioAppend _ => true
  | _ => false

/-! ### Session termination

The release operations live in two places: the `finally` of
`handle_messages` (stop and close the speaker stream, if set) and
`RealtimeAPIClient.cleanup` (close the websocket if set, then
`racing_client.disconnect()`), which `run`'s own `finally` always reaches.
`disconnect` never raises: it catches `shutdown()` exceptions itself. -/

/-- The individual release operations of the claim. -/
inductive RelOp where
  | speakerStop : RelOp
  | speakerClose : RelOp
  | wsClose : RelOp
  | providerDisconnect : RelOp
  deriving Repr, DecidableEq

/-- Which release operations can fail at termination time. -/
structure ShutdownEnv where
  speakerOpen : Bool
  speakerStopFails : Bool
  speakerCloseFails : Bool
  wsPresent : Bool
  wsCloseFails : Bool
  deriving Repr, DecidableEq

/-- The `finally` block of `handle_messages`: `stop()` then `close()` on the
speaker stream when one is set; an exception in `stop()` skips `close()`.
Returns the operations executed and whether the block raised. -/
def handleMessagesFinally (e : ShutdownEnv) : List RelOp × Bool :=
  if e.speakerOpen then
    if e.speakerStopFails then ([.speakerStop], true)
    else if e.speakerCloseFails then ([.speakerStop, .speakerClose], true)
    else ([.speakerStop, .speakerClose], false)
  else ([], false)

/-- Embeds `RealtimeAPIClient.cleanup`: `await self.ws.close()` if a websocket is
set, then `self.racing_client.disconnect()`.  There is no exception
handling, so a raise from `ws.close()` skips the disconnect. -/
def cleanup (e : ShutdownEnv) : List RelOp × Bool :=
  if e.wsPresent then
    if e.wsCloseFails then ([.wsClose], true)
    else ([.wsClose, .providerDisconnect], false)
  else ([.providerDisconnect], false)

/-- All release operations executed at session termination, in order:
`handle_messages`'s `finally`, then `cleanup` (reached by `run`'s `finally`
even if the former raised). -/
def shutdownOps (e : ShutdownEnv) : List RelOp :=
  (handleMessagesFinally e).1 ++ (cleanup e).1

/-! ### Derived total descriptions and concrete fixtures -/

open RacingMCPClient

/-- Total description of the guarded position lookup: `none` off the ends of
the array, the stored entry inside it. -/
def safeNth {α : Type} (xs : List α) (i : ℤ) : Option α :=
  if 0 ≤ i ∧ i < (xs.length : ℤ) then xs.get? i.toNat else none

/-- Total description of one competitor record: skipped entries give `none`,
kept entries carry a bounds-checked (`safeNth`) position. -/
def competitorRecord (camIdx : ℤ) (positions : List ℤ) : Option Driver → Option Json
  | none => none
  | some driver =>
    let idx := driver.carIdx.getD (-1)
    if idx = camIdx ∨ idx < 0 then none
    else some (Json.obj
      [("name", Json.str (driver.userName.getD "Unknown")),
       ("car", Json.str (driver.carScreenNameShort.getD "Unknown")),
       ("car_number", Json.str (driver.carNumber.getD "")),
       ("position", optIntJson (safeNth positions idx))])

/-- The camera-car index read by `get_racing_situation` on a connected
handle. -/
def camIdxOf (h : IRSDKHandle) : ℤ :=
  RacingMCPClient.getTyped (MCPState.handle h) IRSDKHandle.camCarIdx (-1)

/-- The position array read by `get_racing_situation` on a connected
handle. -/
def positionsOf (h : IRSDKHandle) : List ℤ :=
  RacingMCPClient.getTyped (MCPState.handle h) IRSDKHandle.carIdxPosition []

/-- The driver entries read by `get_racing_situation` on a connected
handle. -/
def driversOf (h : IRSDKHandle) : List (Option Driver) :=
  (h.session_info_update.bind SessionInfo.drivers).getD []

/-- Total description of the result of `get_racing_situation` on a
connected handle: all position lookups go through `safeNth`. -/
def situationOf (h : IRSDKHandle) : Json :=
  let speed_ms := RacingMCPClient.getTyped (MCPState.handle h) IRSDKHandle.speedVar 0
  Json.obj
    [("position", optIntJson (safeNth (positionsOf h) (camIdxOf h))),
     ("lap", RacingMCPClient.get_ (MCPState.handle h) "Lap" Json.null),
     ("lap_distance", RacingMCPClient.get_ (MCPState.handle h) "LapDist" Json.null),
     ("speed", Json.obj
       [("m_s", Json.num speed_ms),
        ("km_h", Json.num (if speed_ms ≠ 0 then speed_ms * (18/5) else 0)),
        ("mph", Json.num (if speed_ms ≠ 0 then speed_ms * (2237/1000) else 0))]),
     ("track_conditions", Json.obj
       [("track_temp_c", RacingMCPClient.get_ (MCPState.handle h) "TrackTempCrew" Json.null),
        ("air_temp_c", RacingMCPClient.get_ (MCPState.handle h) "AirTemp" Json.null),
        ("weather_type", RacingMCPClient.get_ (MCPState.handle h) "WeatherType" Json.null)]),
     ("vehicle_status", Json.obj
       [("fuel_level_l", RacingMCPClient.get_ (MCPState.handle h) "FuelLevel" Json.null),
        ("fuel_percent", RacingMCPClient.get_ (MCPState.handle h) "FuelLevelPct" Json.null),
        ("oil_temp_c", RacingMCPClient.get_ (MCPState.handle h) "OilTemp" Json.null),
        ("water_temp_c", RacingMCPClient.get_ (MCPState.handle h) "WaterTemp" Json.null)]),
     ("competitors", Json.arr
       ((driversOf h).filterMap (competitorRecord (camIdxOf h) (positionsOf h))))]

/-- A handle whose `is_connected` flag is down (e.g. after `startup()`
returned `False`). -/
def stubOfflineHandle : IRSDKHandle :=
  { is_connected := false
    readVar := fun _ => VarRead.missing
    camCarIdx := VarRead.missing
    carIdxPosition := VarRead.missing
    speedVar := VarRead.missing
    session_info_update := none }

/-- A connected handle whose camera-car index (5) lies outside its
position array (length 2). -/
def stubConnectedHandle : IRSDKHandle :=
  { is_connected := true
    readVar := fun _ => VarRead.missing
    camCarIdx := VarRead.val 5
    carIdxPosition := VarRead.val [3, 1]
    speedVar := VarRead.missing
    session_info_update := none }

/-- Well-formed speaker-stream trace segments, relating the open/closed
flag before the segment to the flag after it: a stream opens only when none
is open, writes happen only on the open stream, and a close requires an
open stream — so two playback streams can never be open or interleaved
simultaneously, and a delta after a done opens a fresh stream. -/
inductive AudioSeg : Bool → List AudioAction → Bool → Prop where
  | nil (b : Bool) : AudioSeg b [] b
  | openStream {t : List AudioAction} {b : Bool} :
      AudioSeg true t b → AudioSeg false (AudioAction.streamOpen :: t) b
  | write {t : List AudioAction} {b : Bool} (s : String) :
      AudioSeg true t b → AudioSeg true (AudioAction.streamWrite s :: t) b
  | close {t : List AudioAction} {b : Bool} :
      AudioSeg false t b → AudioSeg true (AudioAction.streamClose :: t) b

/-- The configuration payload produced when the provider is not ready: all
context values come from the documented defaults. -/
def defaultConfig : Json :=
  Json.obj
    [("modalities", Json.arr [Json.str "text", Json.str "audio"]),
     ("instructions_track", Json.str "unknown"),
     ("instructions_position", Json.null),
     ("instructions_speed_mph", Json.num 0),
     ("voice", Json.str "echo"),
     ("input_audio_format", Json.str "pcm16"),
     ("output_audio_format", Json.str "pcm16"),
     ("turn_detection_threshold", Json.num (3/10)),
     ("tools", Json.arr
       [Json.str "get_telemetry", Json.str "get_racing_situation",
        Json.str "get_track_info"]),
     ("temperature", Json.num (4/5)),
     ("max_response_output_tokens", Json.num 150)]

/-- An environment in which `import irsdk` failed (`irsdk is None`). -/
def noIrsdkEnv : StartEnv :=
  { irsdkAvailable := false
    startupResult := Except.ok false
    newHandle := stubOfflineHandle }

/-! ## Helper lemmas -/

/-- Feeding frames into the `maxsize = 0` queue always appends and never
blocks: `Queue.full()` is false for an infinite queue. -/
theorem putAll_unbounded (items fs : List String) :
    putAll ⟨0, items⟩ fs = (⟨0, items ++ fs⟩, false) := by
  induction fs generalizing items with
  | nil => simp [putAll]
  | cons f fs ih =>
    have hfull : (PyQueue.full ⟨0, items⟩ : Bool) = false := by
      simp [PyQueue.full]
    unfold putAll audio_input_callback PyQueue.put
    rw [hfull]
    simp [ih (items ++ [f])]

/-! ## C2 — the capture queue -/

/-- C2 counterexample: The claim says the capture queue is a *bounded*
FIFO that drops the newest frame when full.  The queue built in
`RealtimeAPIClient.__init__` is `queue.Queue()` with the default
`maxsize = 0`, i.e. infinite: no bound `B` caps the queue length over all
callback sequences, so it is not bounded and no frame is ever dropped. -/
theorem capture_queue_not_bounded :
    ¬ ∃ B : ℕ, ∀ frames : List String,
      ((putAll inputQueueInit frames).1.items.length ≤ B) := by
  rintro ⟨B, hB⟩
  have h := hB (List.replicate (B + 1) "frame")
  rw [show inputQueueInit = (⟨0, []⟩ : PyQueue String) from rfl,
    putAll_unbounded] at h
  simp at h

/-- C2 amended: The capture queue is an unbounded FIFO: every frame the
microphone callback produces is appended at the tail in order, the queue is
never full, and the enqueue never blocks the callback (the liveness half of
the original claim holds; the bounded/drop-newest half does not). -/
theorem capture_enqueue_never_blocks (fs : List String) :
    putAll inputQueueInit fs = (⟨0, fs⟩, false) ∧
    (putAll inputQueueInit fs).1.full = false ∧
    ∀ f, audio_input_callback (putAll inputQueueInit fs).1 f =
      PutResult.enqueued ⟨0, fs ++ [f]⟩ := by
  have h : putAll inputQueueInit fs = (⟨0, fs⟩, false) := by
    rw [show inputQueueInit = (⟨0, []⟩ : PyQueue String) from rfl, putAll_unbounded]
    simp
  refine ⟨h, ?_, ?_⟩
  · rw [h]; simp [PyQueue.full]
  · intro f
    rw [h]
    simp [audio_input_callback, PyQueue.put, PyQueue.full]

/-! ## C3 — the termination release sequence -/

/-- C3 counterexample: The claim says each release operation executes
even if an earlier one fails.  `cleanup` has no exception handling: when the
websocket is set and `ws.close()` raises, `racing_client.disconnect()` is
never executed. -/
theorem disconnect_skipped_when_ws_close_fails :
    RelOp.providerDisconnect ∉
      shutdownOps ⟨false, false, false, true, true⟩ := by decide

/-- C3 amended: On termination the playback-stream release (in
`handle_messages`'s `finally`) and `cleanup` (in `run`'s `finally`) both
run, so the transport close and the provider disconnect execute even if the
playback-stream release failed; and when no release operation fails all
three execute.  But failures are not collected: a failing `ws.close()`
skips the provider disconnect, and a failing speaker `stop()` skips the
speaker `close()`. -/
theorem shutdown_release_sequence (e : ShutdownEnv)
    (hws : e.wsCloseFails = false) :
    (e.wsPresent = true → RelOp.wsClose ∈ shutdownOps e) ∧
    RelOp.providerDisconnect ∈ shutdownOps e ∧
    (e.speakerOpen = true → e.speakerStopFails = false →
      RelOp.speakerClose ∈ shutdownOps e) := by
  obtain ⟨so, ssf, scf, wp, wcf⟩ := e
  simp only at hws
  subst hws
  cases so <;> cases ssf <;> cases scf <;> cases wp <;> decide

/-- C3 witness for the amended theorem: speaker open, websocket set,
no failures — all three release operations appear in the executed sequence. -/
theorem shutdown_release_sequence_witness :
    (ShutdownEnv.wsCloseFails ⟨true, false, false, true, false⟩ = false) ∧
    ((ShutdownEnv.wsPresent ⟨true, false, false, true, false⟩ = true →
        RelOp.wsClose ∈ shutdownOps ⟨true, false, false, true, false⟩) ∧
      RelOp.providerDisconnect ∈ shutdownOps ⟨true, false, false, true, false⟩ ∧
      (ShutdownEnv.speakerOpen ⟨true, false, false, true, false⟩ = true →
        ShutdownEnv.speakerStopFails ⟨true, false, false, true, false⟩ = false →
        RelOp.speakerClose ∈ shutdownOps ⟨true, false, false, true, false⟩)) :=
  ⟨rfl, shutdown_release_sequence ⟨true, false, false, true, false⟩ rfl⟩

/-! ## Characterizing the getters -/

/-- The guarded subscript in `get_racing_situation` never raises and agrees
with `safeNth`. -/
theorem guardedIndex_eq_safeNth {α : Type} (xs : List α) (i : ℤ) :
    guardedIndex xs i = Except.ok (safeNth xs i) := by
  unfold guardedIndex safeNth pyIndex
  by_cases h : 0 ≤ i ∧ i < (xs.length : ℤ)
  · rw [if_pos h, if_pos h]
    have hlt : i.toNat < xs.length := by omega
    rw [dif_pos ⟨h.1, hlt⟩]
    show Except.ok (some _) = Except.ok _
    rw [List.get?_eq_get hlt]
  · rw [if_neg h, if_neg h]
    rfl

/-- In the `Except` monad, `pure` is `ok`. -/
theorem exceptPure_eq {ε α : Type} (a : α) : (pure a : Except ε α) = Except.ok a := rfl

/-- One competitors-loop iteration never raises and appends exactly the
`competitorRecord` entry (if any). -/
theorem competitorStep_eq (camIdx : ℤ) (positions : List ℤ) (acc : List Json)
    (d : Option Driver) :
    competitorStep camIdx positions acc d =
      Except.ok (acc ++ (competitorRecord camIdx positions d).toList) := by
  cases d with
  | none => simp [competitorStep, competitorRecord, exceptPure_eq]
  | some driver =>
    by_cases h : driver.carIdx.getD (-1) = camIdx ∨ driver.carIdx.getD (-1) < 0
    · simp [competitorStep, competitorRecord, h, exceptPure_eq]
    · simp only [competitorStep, competitorRecord, h, guardedIndex_eq_safeNth,
        exceptPure_eq, if_neg h]
      rfl

/-- The whole competitors loop never raises and builds the `filterMap` of
`competitorRecord` over the driver entries. -/
theorem competitorsFold_eq (camIdx : ℤ) (positions : List ℤ)
    (ds : List (Option Driver)) (acc : List Json) :
    ds.foldlM (competitorStep camIdx positions) acc =
      Except.ok (acc ++ ds.filterMap (competitorRecord camIdx positions)) := by
  induction ds generalizing acc with
  | nil => simp [exceptPure_eq]
  | cons d ds ih =>
    rw [List.foldlM_cons, competitorStep_eq]
    show ds.foldlM (competitorStep camIdx positions)
      (acc ++ (competitorRecord camIdx positions d).toList) = _
    rw [ih]
    cases hrec : competitorRecord camIdx positions d <;>
      simp [List.filterMap_cons, hrec]

/-- On a connected handle, `get_racing_situation` never raises and returns
exactly `situationOf`. -/
theorem get_racing_situation_connected (h : IRSDKHandle)
    (hc : h.is_connected = true) :
    RacingMCPClient.get_racing_situation (MCPState.handle h) =
      Except.ok (situationOf h) := by
  have hready : RacingMCPClient.ready (MCPState.handle h) = true := hc
  unfold RacingMCPClient.get_racing_situation
  rw [hready]
  show (guardedIndex (RacingMCPClient.getTyped (MCPState.handle h)
      IRSDKHandle.carIdxPosition []) (RacingMCPClient.getTyped (MCPState.handle h)
      IRSDKHandle.camCarIdx (-1)) >>= _) = _
  rw [guardedIndex_eq_safeNth]
  show (((h.session_info_update.bind SessionInfo.drivers).getD []).foldlM
      (competitorStep _ _) [] >>= _) = _
  rw [competitorsFold_eq]
  rfl

/-- All three getters return their documented defaults whenever the client
is not ready (no handle, or a handle whose `is_connected` flag is down). -/
theorem getters_default_of_not_ready (s : MCPState)
    (h : RacingMCPClient.ready s = false) :
    RacingMCPClient.get_telemetry s = telemetryDefaults ∧
    RacingMCPClient.get_racing_situation s = Except.ok situationDefaults ∧
    RacingMCPClient.get_track_info s = trackDefaults := by
  refine ⟨?_, ?_, ?_⟩
  · unfold RacingMCPClient.get_telemetry
    rw [h]
    rfl
  · unfold RacingMCPClient.get_racing_situation
    rw [h]
    rfl
  · unfold RacingMCPClient.get_track_info
    rw [h]
    rfl

/-- Lemma: `get_racing_situation` never raises, connected or not. -/
theorem get_racing_situation_ok (s : MCPState) :
    ∃ j, RacingMCPClient.get_racing_situation s = Except.ok j := by
  cases s with
  | noHandle =>
    exact ⟨situationDefaults, (getters_default_of_not_ready MCPState.noHandle rfl).2.1⟩
  | handle h =>
    by_cases hc : h.is_connected = true
    · exact ⟨situationOf h, get_racing_situation_connected h hc⟩
    · have hr : RacingMCPClient.ready (MCPState.handle h) = false := by
        simpa [RacingMCPClient.ready] using hc
      exact ⟨situationDefaults, (getters_default_of_not_ready _ hr).2.1⟩

/-- Lemma: `dispatchTool` never raises, for every client state and tool name. -/
theorem dispatchTool_ok (racing : MCPState) (name : String) :
    ∃ j, dispatchTool racing name = Except.ok j := by
  unfold dispatchTool
  by_cases h1 : name = "get_telemetry"
  · rw [if_pos h1]; exact ⟨_, rfl⟩
  · rw [if_neg h1]
    by_cases h2 : name = "get_racing_situation"
    · rw [if_pos h2]; exact get_racing_situation_ok racing
    · rw [if_neg h2]
      by_cases h3 : name = "get_track_info"
      · rw [if_pos h3]; exact ⟨_, rfl⟩
      · rw [if_neg h3]; exact ⟨_, rfl⟩

/-! ## C9 — getters default when no live connection exists -/

/-- C9: In every client state with no live connection — `_irsdk` never
set (never connected, or disconnected), or set with the SDK's connectivity
flag down (e.g. `connect()` returned false) — `get_telemetry`,
`get_racing_situation` and `get_track_info` return their documented
default-valued mappings and never raise (`get_racing_situation`, the only
getter with a fallible primitive inside, returns `ok`). -/
theorem disconnected_getters_return_defaults (s : MCPState)
    (h : RacingMCPClient.ready s = false) :
    RacingMCPClient.get_telemetry s = telemetryDefaults ∧
    RacingMCPClient.get_racing_situation s = Except.ok situationDefaults ∧
    RacingMCPClient.get_track_info s = trackDefaults :=
  getters_default_of_not_ready s h

/-- C9 witness: a handle whose connectivity flag is down. -/
theorem disconnected_getters_return_defaults_witness :
    RacingMCPClient.ready (MCPState.handle stubOfflineHandle) = false ∧
    (RacingMCPClient.get_telemetry (MCPState.handle stubOfflineHandle) = telemetryDefaults ∧
     RacingMCPClient.get_racing_situation (MCPState.handle stubOfflineHandle) =
       Except.ok situationDefaults ∧
     RacingMCPClient.get_track_info (MCPState.handle stubOfflineHandle) = trackDefaults) :=
  ⟨rfl, disconnected_getters_return_defaults (MCPState.handle stubOfflineHandle) rfl⟩

/-! ## C10 — position-array accesses are bounds-checked -/

/-- C10: On a connected handle `get_racing_situation` never fails with
an out-of-range index: it returns `ok` of `situationOf`, in which the
camera-car position and every competitor's position go through the total
`safeNth` lookup, and `safeNth` yields `None` (not an error) for every
index outside the `CarIdxPosition` array. -/
theorem carIdxPosition_access_bounds_checked (h : IRSDKHandle)
    (hc : h.is_connected = true) :
    RacingMCPClient.get_racing_situation (MCPState.handle h) =
      Except.ok (situationOf h) ∧
    (situationOf h).getField "position" Json.null =
      optIntJson (safeNth (positionsOf h) (camIdxOf h)) ∧
    (situationOf h).getField "competitors" Json.null =
      Json.arr ((driversOf h).filterMap
        (competitorRecord (camIdxOf h) (positionsOf h))) ∧
    (∀ i : ℤ, ¬(0 ≤ i ∧ i < ((positionsOf h).length : ℤ)) →
      safeNth (positionsOf h) i = none) := by
  refine ⟨get_racing_situation_connected h hc, rfl, rfl, ?_⟩
  intro i hi
  unfold safeNth
  rw [if_neg hi]

/-- C10 witness: camera-car index 5 against a two-entry position
array — the result is `ok` and the position is `None`. -/
theorem carIdxPosition_access_bounds_checked_witness :
    stubConnectedHandle.is_connected = true ∧
    (RacingMCPClient.get_racing_situation (MCPState.handle stubConnectedHandle) =
       Except.ok (situationOf stubConnectedHandle) ∧
     (situationOf stubConnectedHandle).getField "position" Json.null =
       optIntJson (safeNth (positionsOf stubConnectedHandle) (camIdxOf stubConnectedHandle)) ∧
     (situationOf stubConnectedHandle).getField "competitors" Json.null =
       Json.arr ((driversOf stubConnectedHandle).filterMap
         (competitorRecord (camIdxOf stubConnectedHandle) (positionsOf stubConnectedHandle))) ∧
     (∀ i : ℤ, ¬(0 ≤ i ∧ i < ((positionsOf stubConnectedHandle).length : ℤ)) →
       safeNth (positionsOf stubConnectedHandle) i = none)) :=
  ⟨rfl, carIdxPosition_access_bounds_checked stubConnectedHandle rfl⟩

/-! ## C7 — known tools dispatch 1:1 to provider calls -/

/-- C7: For each enumerated tool name, on a connected provider,
dispatch returns exactly the mapping of the corresponding direct provider
call (for `get_racing_situation`, the `ok` of its connected result), and no
`"error"` key occurs in any of the three results. -/
theorem known_tool_dispatch_matches_provider (h : IRSDKHandle)
    (hc : h.is_connected = true) :
    dispatchTool (MCPState.handle h) "get_telemetry" =
      Except.ok (RacingMCPClient.get_telemetry (MCPState.handle h)) ∧
    dispatchTool (MCPState.handle h) "get_racing_situation" =
      RacingMCPClient.get_racing_situation (MCPState.handle h) ∧
    dispatchTool (MCPState.handle h) "get_racing_situation" =
      Except.ok (situationOf h) ∧
    dispatchTool (MCPState.handle h) "get_track_info" =
      Except.ok (RacingMCPClient.get_track_info (MCPState.handle h)) ∧
    "error" ∉ (RacingMCPClient.get_telemetry (MCPState.handle h)).keys ∧
    "error" ∉ (situationOf h).keys ∧
    "error" ∉ (RacingMCPClient.get_track_info (MCPState.handle h)).keys := by
  have hready : RacingMCPClient.ready (MCPState.handle h) = true := hc
  have hkt : (RacingMCPClient.get_telemetry (MCPState.handle h)).keys =
      ["rpm", "gear", "throttle", "brake", "clutch", "steering",
       "speed_ms", "speed_kph", "speed_mph", "temperatures"] := by
    unfold RacingMCPClient.get_telemetry
    rw [hready]
    rfl
  have hki : (RacingMCPClient.get_track_info (MCPState.handle h)).keys =
      ["name", "length", "layout", "surface", "weather", "city", "country"] := by
    unfold RacingMCPClient.get_track_info
    rw [hready]
    rfl
  refine ⟨rfl, rfl, ?_, rfl, ?_, ?_, ?_⟩
  · show RacingMCPClient.get_racing_situation (MCPState.handle h) = _
    exact get_racing_situation_connected h hc
  · rw [hkt]; decide
  · show "error" ∉ (["position", "lap", "lap_distance", "speed",
      "track_conditions", "vehicle_status", "competitors"] : List String)
    decide
  · rw [hki]; decide

/-- C7 witness: the connected stub handle. -/
theorem known_tool_dispatch_matches_provider_witness :
    stubConnectedHandle.is_connected = true ∧
    (dispatchTool (MCPState.handle stubConnectedHandle) "get_telemetry" =
       Except.ok (RacingMCPClient.get_telemetry (MCPState.handle stubConnectedHandle)) ∧
     dispatchTool (MCPState.handle stubConnectedHandle) "get_racing_situation" =
       RacingMCPClient.get_racing_situation (MCPState.handle stubConnectedHandle) ∧
     dispatchTool (MCPState.handle stubConnectedHandle) "get_racing_situation" =
       Except.ok (situationOf stubConnectedHandle) ∧
     dispatchTool (MCPState.handle stubConnectedHandle) "get_track_info" =
       Except.ok (RacingMCPClient.get_track_info (MCPState.handle stubConnectedHandle)) ∧
     "error" ∉ (RacingMCPClient.get_telemetry (MCPState.handle stubConnectedHandle)).keys ∧
     "error" ∉ (situationOf stubConnectedHandle).keys ∧
     "error" ∉ (RacingMCPClient.get_track_info (MCPState.handle stubConnectedHandle)).keys) :=
  ⟨rfl, known_tool_dispatch_matches_provider stubConnectedHandle rfl⟩

/-! ## C1 — at most one playback stream at a time -/

/-- Well-formed segments compose. -/
theorem AudioSeg.append {b1 b2 b3 : Bool} {t1 t2 : List AudioAction}
    (h1 : AudioSeg b1 t1 b2) : AudioSeg b2 t2 b3 → AudioSeg b1 (t1 ++ t2) b3 := by
  induction h1 with
  | nil _ => exact fun h2 => h2
  | openStream _ ih => exact fun h2 => AudioSeg.openStream (ih h2)
  | write s _ ih => exact fun h2 => AudioSeg.write s (ih h2)
  | close _ ih => exact fun h2 => AudioSeg.close (ih h2)

/-- Each single event produces a well-formed speaker segment from the flag
before it to the flag after it. -/
theorem step_audioSeg (racing : MCPState) (spk : Bool) (e : InEvent)
    (out : StepOut) (h : step racing spk e = Except.ok out) :
    AudioSeg spk out.audio out.speakerOpen := by
  cases e with
  | audioDelta b64 =>
    simp only [step] at h
    by_cases hb : b64 ≠ ""
    · rw [if_pos hb] at h
      cases spk with
      | true =>
        simp only [exceptPure_eq, if_pos] at h
        cases h
        exact AudioSeg.write b64 (AudioSeg.nil true)
      | false =>
        simp only [exceptPure_eq, if_neg] at h
        cases h
        exact AudioSeg.openStream (AudioSeg.write b64 (AudioSeg.nil true))
    · rw [if_neg hb] at h
      cases h
      exact AudioSeg.nil spk
  | audioDone =>
    simp only [step] at h
    cases spk with
    | true =>
      simp only [exceptPure_eq, if_pos] at h
      cases h
      exact AudioSeg.close (AudioSeg.nil false)
    | false =>
      simp only [exceptPure_eq, if_neg] at h
      cases h
      exact AudioSeg.nil false
  | toolCall name callId =>
    simp only [step] at h
    obtain ⟨result, hr⟩ := dispatchTool_ok racing name
    rw [hr] at h
    cases h
    exact AudioSeg.nil spk
  | sessionCreated sid => cases h; exact AudioSeg.nil spk
  | sessionUpdated => cases h; exact AudioSeg.nil spk
  | conversationItemCreated => cases h; exact AudioSeg.nil spk
  | errorEvent msg => cases h; exact AudioSeg.nil spk
  | speechStarted => cases h; exact AudioSeg.nil spk
  | speechStopped => cases h; exact AudioSeg.nil spk
  | unknown tag => cases h; exact AudioSeg.nil spk

/-- The whole receive loop produces a well-formed speaker trace from any
starting flag to its final flag. -/
theorem runEvents_audioSeg (racing : MCPState) (events : List InEvent)
    (spk : Bool) :
    AudioSeg spk (runEvents racing spk events).audio
      (runEvents racing spk events).speakerOpen := by
  induction events generalizing spk with
  | nil => exact AudioSeg.nil spk
  | cons e rest ih =>
    simp only [runEvents]
    cases hs : step racing spk e with
    | error err => exact AudioSeg.nil spk
    | ok out =>
      exact AudioSeg.append (step_audioSeg racing spk e out hs) (ih out.speakerOpen)

/-- C1: For every inbound event sequence, the receive loop's speaker
trace is well formed starting from the closed state: a stream opens only
when none is open (`AudioSeg` has no rule opening from the open state), an
`AudioDone` close returns to the closed state, and a later delta then opens
a fresh stream — two playback streams are never open or interleaved. -/
theorem playback_streams_never_interleave (racing : MCPState)
    (events : List InEvent) :
    AudioSeg false (runEvents racing false events).audio
      (runEvents racing false events).speakerOpen :=
  runEvents_audioSeg racing events false

/-! ## C8 — tool result item then continue-turn, in that order -/

/-- C8: Handling any `ToolCallRequested` event sends exactly two
messages, in order: one `conversation.item.create` whose output is the
dispatched result correlated to the request's `call_id`, immediately
followed by one `response.create`; no other effect occurs and the speaker
state is untouched. -/
theorem tool_reply_item_then_continue (racing : MCPState) (spk : Bool)
    (name callId : String) :
    ∃ result, dispatchTool racing name = Except.ok result ∧
      step racing spk (InEvent.toolCall name callId) =
        Except.ok ⟨spk,
          [OutMsg.conversationItemCreate callId result, OutMsg.responseCreate],
          []⟩ := by
  obtain ⟨result, hr⟩ := dispatchTool_ok racing name
  refine ⟨result, hr, ?_⟩
  simp only [step]
  rw [hr]
  rfl

/-! ## C6 — unknown tool names get a structured error reply -/

/-- C6: For a `ToolCallRequested` whose name is outside the enumerated
tool set, the handler replies with the structured result
`{"error": "Unknown function"}` as a conversation item (followed by the
continue-turn request), the state is unchanged, and the loop keeps
processing the remaining events from that same state. -/
theorem unknown_tool_keeps_session_alive (racing : MCPState) (spk : Bool)
    (name callId : String) (rest : List InEvent)
    (h : name ∉ ["get_telemetry", "get_racing_situation", "get_track_info"]) :
    step racing spk (InEvent.toolCall name callId) =
      Except.ok ⟨spk,
        [OutMsg.conversationItemCreate callId
           (Json.obj [("error", Json.str "Unknown function")]),
         OutMsg.responseCreate], []⟩ ∧
    runEvents racing spk (InEvent.toolCall name callId :: rest) =
      ⟨(runEvents racing spk rest).speakerOpen,
       OutMsg.conversationItemCreate callId
           (Json.obj [("error", Json.str "Unknown function")]) ::
         OutMsg.responseCreate :: (runEvents racing spk rest).msgs,
       (runEvents racing spk rest).audio,
       (runEvents racing spk rest).errored⟩ := by
  simp only [List.mem_cons, List.not_mem_nil, or_false, not_or] at h
  obtain ⟨h1, h2, h3⟩ := h
  have hd : dispatchTool racing name =
      Except.ok (Json.obj [("error", Json.str "Unknown function")]) := by
    unfold dispatchTool
    rw [if_neg h1, if_neg h2, if_neg h3]
    rfl
  have hs : step racing spk (InEvent.toolCall name callId) =
      Except.ok ⟨spk,
        [OutMsg.conversationItemCreate callId
           (Json.obj [("error", Json.str "Unknown function")]),
         OutMsg.responseCreate], []⟩ := by
    simp only [step]
    rw [hd]
    rfl
  refine ⟨hs, ?_⟩
  simp only [runEvents, hs]
  rfl

/-- C6 witness: the name `"unknown_tool"`. -/
theorem unknown_tool_keeps_session_alive_witness :
    ("unknown_tool" ∉
       ["get_telemetry", "get_racing_situation", "get_track_info"]) ∧
    (step MCPState.noHandle false (InEvent.toolCall "unknown_tool" "abc") =
       Except.ok ⟨false,
         [OutMsg.conversationItemCreate "abc"
            (Json.obj [("error", Json.str "Unknown function")]),
          OutMsg.responseCreate], []⟩ ∧
     runEvents MCPState.noHandle false
         (InEvent.toolCall "unknown_tool" "abc" :: [InEvent.sessionUpdated]) =
       ⟨(runEvents MCPState.noHandle false [InEvent.sessionUpdated]).speakerOpen,
        OutMsg.conversationItemCreate "abc"
            (Json.obj [("error", Json.str "Unknown function")]) ::
          OutMsg.responseCreate ::
            (runEvents MCPState.noHandle false [InEvent.sessionUpdated]).msgs,
        (runEvents MCPState.noHandle false [InEvent.sessionUpdated]).audio,
        (runEvents MCPState.noHandle false [InEvent.sessionUpdated]).errored⟩) :=
  ⟨by decide, unknown_tool_keeps_session_alive MCPState.noHandle false
    "unknown_tool" "abc" [InEvent.sessionUpdated] (by decide)⟩

/-! ## C4 — the configuration message -/

/-- No receive-loop handler ever sends a `session.update`. -/
theorem step_msgs_no_config (racing : MCPState) (spk : Bool) (e : InEvent)
    (out : StepOut) (h : step racing spk e = Except.ok out) :
    ∀ m ∈ out.msgs, m.isSessionUpdate = false := by
  cases e with
  | audioDelta b64 =>
    simp only [step] at h
    split at h
    · split at h
      · cases h; intro m hm; cases hm
      · cases h; intro m hm; cases hm
    · cases h; intro m hm; cases hm
  | audioDone =>
    simp only [step] at h
    split at h
    · cases h; intro m hm; cases hm
    · cases h; intro m hm; cases hm
  | toolCall name callId =>
    simp only [step] at h
    obtain ⟨result, hr⟩ := dispatchTool_ok racing name
    rw [hr] at h
    cases h
    intro m hm
    rcases List.mem_cons.mp hm with rfl | hm'
    · rfl
    · rcases List.mem_cons.mp hm' with rfl | hm''
      · rfl
      · cases hm''
  | sessionCreated sid => cases h; intro m hm; cases hm
  | sessionUpdated => cases h; intro m hm; cases hm
  | conversationItemCreated => cases h; intro m hm; cases hm
  | errorEvent msg => cases h; intro m hm; cases hm
  | speechStarted => cases h; intro m hm; cases hm
  | speechStopped => cases h; intro m hm; cases hm
  | unknown tag => cases h; intro m hm; cases hm

/-- The whole receive loop never sends a `session.update`. -/
theorem runEvents_msgs_no_config (racing : MCPState) (events : List InEvent)
    (spk : Bool) :
    ∀ m ∈ (runEvents racing spk events).msgs, m.isSessionUpdate = false := by
  induction events generalizing spk with
  | nil => intro m hm; cases hm
  | cons e rest ih =>
    simp only [runEvents]
    cases hs : step racing spk e with
    | error err => intro m hm; cases hm
    | ok out =>
      intro m hm
      rcases List.mem_append.mp hm with hmem | hmem
      · exact step_msgs_no_config racing spk e out hs m hmem
      · exact ih out.speakerOpen m hmem

/-- Every element of an interleaving comes from one of the two sides. -/
theorem Merge.mem_or {α : Type} {as bs cs : List α} (h : Merge as bs cs) :
    ∀ c ∈ cs, c ∈ as ∨ c ∈ bs := by
  induction h with
  | nil => intro c hc; cases hc
  | left hm ih =>
    intro c hc
    rcases List.mem_cons.mp hc with rfl | hc'
    · exact Or.inl (List.mem_cons_self _ _)
    · rcases ih c hc' with hh | hh
      · exact Or.inl (List.mem_cons_of_mem _ hh)
      · exact Or.inr hh
  | right hm ih =>
    intro c hc
    rcases List.mem_cons.mp hc with rfl | hc'
    · exact Or.inr (List.mem_cons_self _ _)
    · rcases ih c hc' with hh | hh
      · exact Or.inl hh
      · exact Or.inr (List.mem_cons_of_mem _ hh)

/-- With the provider not ready, `configure_session` succeeds and sends the
default-valued configuration. -/
theorem configure_session_not_ready (racing : MCPState)
    (h : RacingMCPClient.ready racing = false) :
    configure_session racing = Except.ok defaultConfig := by
  obtain ⟨h1, h2, h3⟩ := getters_default_of_not_ready racing h
  unfold configure_session
  rw [h2]
  show Except.ok _ = _
  rw [h1, h3]
  rfl

/-- C4 counterexample: Receipt of `SessionCreated` does not trigger the
configuration message: the receive loop's `session.created` handler only
logs, so running the loop over `SessionCreated` then `SessionUpdated` sends
no outbound message at all (`configure_session` is instead called
unconditionally by `run` before the loops start). -/
theorem session_created_triggers_no_config :
    (runEvents MCPState.noHandle false
      [InEvent.sessionCreated "sess_1", InEvent.sessionUpdated]).msgs = [] := rfl

/-- C4 amended: The configuration message is sent once, unconditionally
at startup (not triggered by `SessionCreated`, whose handler only logs):
in every outbound trace of `run` — configuration followed by any
interleaving of the send and receive loops — exactly one `session.update`
occurs, and it precedes every `input_audio_buffer.append`. -/
theorem config_sent_once_before_audio (racing : MCPState)
    (frames : List String) (events : List InEvent) (tr : List OutMsg)
    (ht : RunTrace racing frames events tr) :
    tr.countP (fun m => m.isSessionUpdate) = 1 ∧
    ∀ i j mi mj, tr.get? i = some mi → tr.get? j = some mj →
      mi.isSessionUpdate = true → mj.isAudioAppend = true → i < j := by
  obtain ⟨cfg, merged, hcfg, hmerge, rfl⟩ := ht
  have hmer : ∀ m ∈ merged, m.isSessionUpdate = false := by
    intro m hm
    rcases Merge.mem_or hmerge m hm with hmem | hmem
    · obtain ⟨f, hf, rfl⟩ := List.mem_map.mp hmem
      rfl
    · exact runEvents_msgs_no_config racing events false m hmem
  constructor
  · have hz : merged.countP (fun m => m.isSessionUpdate) = 0 :=
      List.countP_eq_zero.mpr (by intro a ha; simp [hmer a ha])
    rw [List.countP_cons_of_pos _ _ (by rfl), hz]
  · intro i j mi mj hi hj hsu happ
    cases i with
    | zero =>
      cases j with
      | zero =>
        have hmj : mj = OutMsg.sessionUpdate cfg := by
          have : some (OutMsg.sessionUpdate cfg) = some mj := hj
          cases this
          rfl
        rw [hmj] at happ
        cases happ
      | succ j => exact Nat.succ_pos j
    | succ i =>
      have hmem : mi ∈ merged := List.get?_mem hi
      rw [hmer mi hmem] at hsu
      cases hsu

/-- C4 witness for the amended theorem: the not-ready provider, one
captured frame, no inbound events. -/
theorem config_sent_once_before_audio_witness :
    RunTrace MCPState.noHandle ["frame1"] []
      [OutMsg.sessionUpdate defaultConfig, OutMsg.inputAudioAppend "frame1"] ∧
    (([OutMsg.sessionUpdate defaultConfig,
       OutMsg.inputAudioAppend "frame1"].countP (fun m => m.isSessionUpdate)) = 1 ∧
     ∀ i j mi mj,
       List.get? [OutMsg.sessionUpdate defaultConfig,
         OutMsg.inputAudioAppend "frame1"] i = some mi →
       List.get? [OutMsg.sessionUpdate defaultConfig,
         OutMsg.inputAudioAppend "frame1"] j = some mj →
       mi.isSessionUpdate = true → mj.isAudioAppend = true → i < j) := by
  have ht : RunTrace MCPState.noHandle ["frame1"] []
      [OutMsg.sessionUpdate defaultConfig, OutMsg.inputAudioAppend "frame1"] :=
    ⟨defaultConfig, [OutMsg.inputAudioAppend "frame1"],
      configure_session_not_ready MCPState.noHandle rfl,
      Merge.left Merge.nil, rfl⟩
  exact ⟨ht, config_sent_once_before_audio MCPState.noHandle ["frame1"] [] _ ht⟩

/-! ## C5 — provider connection failure at startup -/

/-- C5 counterexample: The claim quantifies over every outcome of
`connect`, but one outcome is a raise: when `pyirsdk` is not installed,
`RacingMCPClient.connect` raises `RuntimeError` and
`RealtimeAPIClient.connect` has no handler around the call, so startup
aborts rather than proceeding. -/
theorem startup_aborts_when_pyirsdk_missing :
    clientConnect noIrsdkEnv =
      Except.error "RuntimeError: pyirsdk is required" := rfl

/-- C5 amended: When `connect()` completes and returns `False` (the
SDK was importable but `startup()` returned false or raised), the
controller logs only: startup does not raise, the session proceeds, and
configuration is built from the provider's default-valued mappings.  But
when `connect()` itself raises (`pyirsdk` missing), the exception
propagates and startup aborts. -/
theorem connect_false_session_proceeds (env : StartEnv)
    (hav : env.irsdkAvailable = true)
    (hfail : env.startupResult = Except.ok false ∨
      ∃ u, env.startupResult = Except.error u) :
    ∃ racing, RacingMCPClient.connect env = Except.ok (false, racing) ∧
      clientConnect env = Except.ok racing ∧
      RacingMCPClient.ready racing = false ∧
      RacingMCPClient.get_telemetry racing = telemetryDefaults ∧
      RacingMCPClient.get_racing_situation racing = Except.ok situationDefaults ∧
      RacingMCPClient.get_track_info racing = trackDefaults ∧
      configure_session racing = Except.ok defaultConfig := by
  have hconn : RacingMCPClient.connect env =
      Except.ok (false, MCPState.handle { env.newHandle with is_connected := false }) := by
    unfold RacingMCPClient.connect
    rw [if_pos hav]
    rcases hfail with hf | ⟨u, hf⟩ <;> rw [hf]
  refine ⟨MCPState.handle { env.newHandle with is_connected := false },
    hconn, ?_, rfl, ?_⟩
  · unfold clientConnect
    rw [hconn]
    rfl
  · have hr : RacingMCPClient.ready
        (MCPState.handle { env.newHandle with is_connected := false }) = false := rfl
    obtain ⟨h1, h2, h3⟩ := getters_default_of_not_ready _ hr
    exact ⟨h1, h2, h3, configure_session_not_ready _ hr⟩

/-- C5 witness for the amended theorem: SDK importable, `startup()`
returned `False`. -/
theorem connect_false_session_proceeds_witness :
    (StartEnv.irsdkAvailable ⟨true, Except.ok false, stubOfflineHandle⟩ = true) ∧
    (StartEnv.startupResult ⟨true, Except.ok false, stubOfflineHandle⟩ =
        Except.ok false ∨
      ∃ u, StartEnv.startupResult ⟨true, Except.ok false, stubOfflineHandle⟩ =
        Except.error u) ∧
    (∃ racing,
      RacingMCPClient.connect ⟨true, Except.ok false, stubOfflineHandle⟩ =
        Except.ok (false, racing) ∧
      clientConnect ⟨true, Except.ok false, stubOfflineHandle⟩ = Except.ok racing ∧
      RacingMCPClient.ready racing = false ∧
      RacingMCPClient.get_telemetry racing = telemetryDefaults ∧
      RacingMCPClient.get_racing_situation racing = Except.ok situationDefaults ∧
      RacingMCPClient.get_track_info racing = trackDefaults ∧
      configure_session racing = Except.ok defaultConfig) :=
  ⟨rfl, Or.inl rfl,
    connect_false_session_proceeds ⟨true, Except.ok false, stubOfflineHandle⟩
      rfl (Or.inl rfl)⟩

end RealtimeCoach
